import Mathlib

/-!
Shallow embedding of `be/src/vec/exprs/vectorized_fn_call.cpp` (class
`doris::vectorized::VectorizedFnCall`): function binding (`prepare`),
block execution (`_do_execute` / `execute`), memory estimation
(`estimate_memory`) and structural equality (`equals`).

Machine integers are modelled as `Nat`/`Int`; column payloads as
`List Int`; `Status` returns as `Except`.  External collaborators that
are not part of this translation unit (the function registry, the block
post-condition checks, child expressions at execution time) are passed
in as explicit parameters, so every theorem quantifies over them.
-/

namespace DorisVec

/-- Backend primitive type tags; only `TYPE_AGG_STATE` is inspected by
`vectorized_fn_call.cpp`, the others stand for all remaining tags. -/
inductive PrimitiveType where
  | TYPE_AGG_STATE
  | TYPE_INT
  | TYPE_BOOLEAN
  | TYPE_VARCHAR
  | TYPE_DOUBLE
  deriving DecidableEq, Repr

/-- The slice of the `IDataType` interface that `vectorized_fn_call.cpp`
consults: `get_name`, `get_family_name`, `is_nullable`,
`get_primitive_type`, `have_maximum_size_of_value`,
`get_size_of_value_in_memory`, and (for `DataTypeAggState`) the nested
aggregate function identifier returned by `get_nested_function`. -/
structure DataType where
  name : String
  family_name : String
  is_nullable : Bool
  primitive_type : PrimitiveType
  have_maximum_size_of_value : Bool
  size_of_value_in_memory : Nat
  nested_function : String := ""
  deriving DecidableEq, Repr

/-- The fixed `DataTypeUInt8` instantiated at line 83 of the source for
the fake UDTF executable. -/
def dataTypeUInt8 : DataType :=
  { name := "UInt8", family_name := "UInt8", is_nullable := false,
    primitive_type := .TYPE_BOOLEAN, have_maximum_size_of_value := true,
    size_of_value_in_memory := 1 }

/-- Tag `TFunctionBinaryType`: the declared backend kind of the function.
`BUILTIN` stands for every tag other than the three the source branches
on, i.e. the native-registry path of the final `else`. -/
inductive TFunctionBinaryType where
  | BUILTIN
  | RPC
  | JAVA_UDF
  | AGG_STATE
  deriving DecidableEq, Repr

/-- The slice of `TFunction` used by the source: `name.function_name`,
`signature`, `binary_type`, `is_udtf_function`. -/
structure TFunction where
  function_name : String
  signature : String
  binary_type : TFunctionBinaryType
  is_udtf_function : Bool := false
  deriving DecidableEq, Repr

/-- Runtime-state configuration consulted by `prepare`:
`config::enable_java_support`, `state->enable_decimal256()`,
`state->be_exec_version()`. -/
structure Config where
  enable_java_support : Bool
  enable_decimal256 : Bool := false
  be_exec_version : Nat := 0
  deriving DecidableEq, Repr

/-- One entry of the argument template (`ColumnWithTypeAndName`):
an optional materialized constant column plus type and name. -/
structure ColumnWithTypeAndName where
  column : Option (List Int)
  type : DataType
  name : String
  deriving DecidableEq, Repr

/-- Tests whether `pat` occurs at the start of `hay` (character lists). -/
def charsLeading : List Char → List Char → Bool
  | [], _ => true
  | _ :: _, [] => false
  | p :: ps, h :: hs => decide (p = h) && charsLeading ps hs

/-- Tests whether `pat` occurs somewhere inside `hay` (character lists). -/
def charsContain : List Char → List Char → Bool
  | [], pat => charsLeading pat []
  | h :: t, pat => charsLeading pat (h :: t) || charsContain t pat

/-- Substring test on strings, used to state that an error message
mentions a given fragment. -/
def strContain (hay pat : String) : Bool :=
  charsContain hay.data pat.data

/-- Helper `match_suffix(str, sfx)` from `common/utils.h` (the helper is outside
this translation unit): true iff `str` ends with `sfx`.  Modelled from
the spec: "the function name must carry a reserved suffix"; absence of
the suffix means the test is false. -/
def match_suffix (str sfx : String) : Bool :=
  charsLeading sfx.data.reverse str.data.reverse

/-- Constant `AGG_STATE_SUFFIX` (line 53 of the source). -/
def AGG_STATE_SUFFIX : String := "_state"

/-- The expression-tree slice `prepare` and `equals` need: a call node
(`VectorizedFnCall`, carrying its `TFunction`, declared return type and
children) or a literal child (`VLiteral`, carrying type, name and its
materialized value).  Literals stand for all non-call node kinds. -/
inductive VExpr where
  | literal (type : DataType) (name : String) (value : Int)
  | fnCall (fn : TFunction) (data_type : DataType) (children : List VExpr)

namespace VExpr

/-- Query `is_literal()` of the child interface. -/
def is_literal : VExpr → Bool
  | .literal _ _ _ => true
  | .fnCall _ _ _ => false

/-- Query `data_type()` of the child interface. -/
def data_type : VExpr → DataType
  | .literal t _ _ => t
  | .fnCall _ dt _ => dt

/-- Query `get_column_ptr()` of `VLiteral`: the materialized constant column. -/
def get_column_ptr : VExpr → Option (List Int)
  | .literal _ _ v => some [v]
  | .fnCall _ _ _ => none

mutual

/-- Query `expr_name()`: a literal reports its own name; a call node reports
the display name assembled at line 73 of the source from the function
name, the child names and the return type name. -/
def expr_name : VExpr → String
  | .literal _ n _ => n
  | .fnCall f dt cs =>
      "VectorizedFnCall[" ++ f.function_name ++ "](arguments=" ++
        childNames cs ++ ",return=" ++ dt.name ++ ")"

/-- Helper `get_child_names()` of the `VExpr` base class (outside this
translation unit).  Modelled from the spec: the binding error names the
arguments, so this joins the child display names. -/
def childNames : List VExpr → String
  | [] => ""
  | [c] => expr_name c
  | c :: cs => expr_name c ++ ", " ++ childNames cs

end

end VExpr

/-- Wrapper for `get_child_names()` on a child list. -/
def get_child_names (children : List VExpr) : String :=
  VExpr.childNames children

/-- The argument template built by the loop at lines 60-71: a literal
child contributes its materialized column, any other child contributes
only type and name. -/
def argTemplate (children : List VExpr) : List ColumnWithTypeAndName :=
  children.map fun c =>
    if c.is_literal then
      { column := c.get_column_ptr, type := c.data_type, name := c.expr_name }
    else
      { column := none, type := c.data_type, name := c.expr_name }

/-- The bound executable function object (`_function`), one constructor
per factory the dispatch at lines 75-118 can call.  `native` stands for
whatever the simple function factory returns. -/
inductive BoundFunction where
  | rpc (fn : TFunction) (args : List ColumnWithTypeAndName) (return_type : DataType)
  | javaUdf (fn : TFunction) (args : List ColumnWithTypeAndName) (return_type : DataType)
  | fakeUdtf (args : List ColumnWithTypeAndName) (return_type : DataType)
  | aggState (arg_types : List DataType) (return_type : DataType) (nested : String)
  | native (name : String) (return_type : DataType)
  deriving DecidableEq, Repr

/-- The return type the bound executable was built with. -/
def BoundFunction.return_type : BoundFunction → DataType
  | .rpc _ _ t => t
  | .javaUdf _ _ t => t
  | .fakeUdtf _ t => t
  | .aggState _ t _ => t
  | .native _ t => t

/-- Structured rendering of the `Status::InternalError` calls issued by
`prepare`, each constructor carrying the data interpolated into the
corresponding format string. -/
inductive PrepError where
  | javaUdfDisabled
  | stateReturnNullable
  | stateReturnNotAggState (family : String)
  | stateNameNoSuffix (signature : String)
  | functionNotFound (function_name : String) (child_names : String) (return_name : String)
  deriving DecidableEq, Repr

/-- The message text of each `prepare` error, following the format
strings of the source (apostrophes elided). -/
def PrepError.message : PrepError → String
  | .javaUdfDisabled =>
      "Java UDF is not enabled, you can change be config enable_java_support to true and restart be."
  | .stateReturnNullable =>
      "State function return type must be not nullable"
  | .stateReturnNotAggState family =>
      "State function return type must be agg_state but get " ++ family
  | .stateNameNoSuffix signature =>
      "Function " ++ (signature ++ " is not endwith _state")
  | .functionNotFound function_name child_names return_name =>
      "Could not find function " ++
        (function_name ++ (", arg " ++ (child_names ++ (" return " ++ (return_name ++ " ")))))

/-- The native function registry
(`SimpleFunctionFactory::instance().get_function`), keyed by name,
argument template, return type, decimal256 flag and executor version;
`none` is a lookup miss. -/
def Registry : Type :=
  String → List ColumnWithTypeAndName → DataType → Bool → Nat → Option BoundFunction

/-- The binding part of `VectorizedFnCall::prepare` (lines 57-123):
builds the argument template, dispatches on the declared backend kind to
construct `_function`, and fails with the final not-found error when no
branch bound an executable. -/
def prepare (cfg : Config) (registry : Registry) (fn : TFunction)
    (data_type : DataType) (children : List VExpr) :
    Except PrepError BoundFunction :=
  let argument_template := argTemplate children
  let bound : Except PrepError (Option BoundFunction) :=
    if fn.binary_type = .RPC then
      .ok (some (.rpc fn argument_template data_type))
    else if fn.binary_type = .JAVA_UDF then
      if cfg.enable_java_support then
        if fn.is_udtf_function then
          -- fake function: built against DataTypeUInt8, not `data_type`
          .ok (some (.fakeUdtf argument_template dataTypeUInt8))
        else
          .ok (some (.javaUdf fn argument_template data_type))
      else
        .error .javaUdfDisabled
    else if fn.binary_type = .AGG_STATE then
      let argument_types := argument_template.map (fun c => c.type)
      if match_suffix fn.function_name AGG_STATE_SUFFIX then
        if data_type.is_nullable then
          .error .stateReturnNullable
        else if data_type.primitive_type ≠ .TYPE_AGG_STATE then
          .error (.stateReturnNotAggState data_type.family_name)
        else
          .ok (some (.aggState argument_types data_type data_type.nested_function))
      else
        .error (.stateNameNoSuffix fn.signature)
    else
      .ok (registry fn.function_name argument_template data_type
            cfg.enable_decimal256 cfg.be_exec_version)
  match bound with
  | .error e => .error e
  | .ok none =>
      .error (.functionNotFound fn.function_name (get_child_names children) data_type.name)
  | .ok (some f) => .ok f

/-! ## Execution model (`_do_execute`, lines 159-215) -/

/-- One column of a `Block`: payload (absent for the freshly inserted
empty result column), declared type, and name. -/
structure ColumnEntry where
  column : Option (List Int)
  type : DataType
  name : String
  deriving DecidableEq, Repr

/-- The columnar block: an ordered sequence of columns plus the batch
row count returned by `Block::rows()`. -/
structure Block where
  entries : List ColumnEntry
  rows : Nat
  deriving DecidableEq, Repr

/-- Query `Block::columns()`. -/
def Block.columns (b : Block) : Nat := b.entries.length

/-- Operation `Block::insert`: append a column entry. -/
def Block.insert (b : Block) (e : ColumnEntry) : Block :=
  { b with entries := b.entries ++ [e] }

/-- Replace the payload of the entry at index `i` (how the bound
function populates the result column in place). -/
def setPayload : List ColumnEntry → Nat → List Int → List ColumnEntry
  | [], _, _ => []
  | e :: t, 0, d => { e with column := some d } :: t
  | e :: t, n + 1, d => e :: setPayload t n d

/-- The in-place write of the result column at index `i`. -/
def Block.setData (b : Block) (i : Nat) (d : List Int) : Block :=
  { b with entries := setPayload b.entries i d }

/-- A child expression as `_do_execute` observes it: its `execute`
(taking the block, returning the grown block and the index of its result
column) and its `estimate_memory`. -/
structure ChildNode where
  exec : Block → Except String (Block × Nat)
  estimate : Nat → Nat

/-- The constant column cached during `open` when the node was proven
constant (`get_const_col`); present iff `is_const_and_have_executed()`
is true. -/
structure ConstColumn where
  data : List Int
  type : DataType
  deriving DecidableEq, Repr

/-- The node state `_do_execute` reads: declared return type, display
name, children, the bound function (modelled by the payload it computes
for the result column), the cached constant column, and the optional
`fast_execute` hook. -/
structure VFnCall where
  data_type : DataType
  expr_name : String
  children : List ChildNode
  fnImpl : Block → List Nat → Nat → Nat → Except String (List Int)
  constCol : Option ConstColumn
  fastExec : Block → Option (Block × Nat)

/-- The external checks `_do_execute` delegates: `check_constant` of the
`VExpr` base class and `Block::check_type_and_column`, both outside this
translation unit and modelled as arbitrary predicates. -/
structure ExecEnv where
  checkConstant : Block → List Nat → Bool
  checkTypeAndColumn : Block → Bool

/-- Helper `get_result_from_const` of the `VExpr` base class (outside this
translation unit).  Modelled from the spec: return the previously
materialized constant column; it is appended to the block under the
node display name and its index is returned. -/
def get_result_from_const (b : Block) (name : String) (c : ConstColumn) :
    Except String (Block × Nat) :=
  .ok (b.insert { column := some c.data, type := c.type, name := name }, b.columns)

/-- The loop at lines 188-193: execute every child in order against the
growing block and collect the produced column indices. -/
def execChildren : List ChildNode → Block → Except String (Block × List Nat)
  | [], b => .ok (b, [])
  | c :: cs, b =>
    match c.exec b with
    | .error m => .error m
    | .ok (b1, id) =>
      match execChildren cs b1 with
      | .error m => .error m
      | .ok (b2, ids) => .ok (b2, id :: ids)

/-- Method `VectorizedFnCall::_do_execute` (lines 159-215), debug-point hooks
elided (they are inert outside test configurations): constant
short-circuit, `fast_execute`, child materialization, `check_constant`,
result-column insertion, function invocation, `check_type_and_column`. -/
def doExecute (env : ExecEnv) (e : VFnCall) (block : Block) :
    Except String (Block × Nat) :=
  match e.constCol with
  | some c => get_result_from_const block e.expr_name c
  | none =>
    match e.fastExec block with
    | some (b, id) => .ok (b, id)
    | none =>
      match execChildren e.children block with
      | .error m => .error m
      | .ok (b1, args) =>
        if env.checkConstant b1 args then
          let num_columns_without_result := b1.columns
          let b2 := b1.insert { column := none, type := e.data_type, name := e.expr_name }
          match e.fnImpl b2 args num_columns_without_result b2.rows with
          | .error m => .error m
          | .ok data =>
            let b3 := b2.setData num_columns_without_result data
            if env.checkTypeAndColumn b3 then
              .ok (b3, num_columns_without_result)
            else
              .error "check_type_and_column"
        else
          .error "check_constant"

/-! ## Memory estimation (`estimate_memory`, lines 217-233) -/

/-- Method `VectorizedFnCall::estimate_memory`: zero for a constant node
already evaluated in `open`; otherwise the sum of the child estimates
plus `rows` times the return type value size when it is statically
bounded, or `rows * 512` otherwise. -/
def estimate_memory (e : VFnCall) (rows : Nat) : Nat :=
  if e.constCol.isSome then
    0
  else
    ((e.children.map fun c => c.estimate rows).sum) +
      (if e.data_type.have_maximum_size_of_value then
        rows * e.data_type.size_of_value_in_memory
      else
        rows * 512)

/-! ## Structural equality (`equals`, lines 283-300) -/

mutual

/-- Method `VectorizedFnCall::equals`: the dynamic cast fails on a non-call
argument; otherwise compare `_function_name` (assigned from
`_fn.name.function_name` in `prepare`), the child count, and the
children pairwise in order.  The literal-to-literal case is the child
dispatch outside this translation unit, modelled from the spec: a pair
of children is equal when type and value agree. -/
def VExpr.equals : VExpr → VExpr → Bool
  | .fnCall f _ cs, .fnCall g _ ds =>
      decide (f.function_name = g.function_name) &&
        decide (cs.length = ds.length) && VExpr.equalsChildren cs ds
  | .literal t _ v, .literal t2 _ v2 => decide (t = t2) && decide (v = v2)
  | .fnCall _ _ _, .literal _ _ _ => false
  | .literal _ _ _, .fnCall _ _ _ => false

/-- The loop at lines 294-298: pairwise recursive equality of the child
lists, in order. -/
def VExpr.equalsChildren : List VExpr → List VExpr → Bool
  | [], [] => true
  | a :: as, b :: bs => VExpr.equals a b && VExpr.equalsChildren as bs
  | _, _ => false

end

/-! ## Concrete sample values -/

/-- A 4-byte integer type with a statically bounded value size. -/
def dtInt : DataType :=
  { name := "Int32", family_name := "Int32", is_nullable := false,
    primitive_type := .TYPE_INT, have_maximum_size_of_value := true,
    size_of_value_in_memory := 4 }

/-- A string type without a statically bounded value size. -/
def dtStr : DataType :=
  { name := "String", family_name := "String", is_nullable := false,
    primitive_type := .TYPE_VARCHAR, have_maximum_size_of_value := false,
    size_of_value_in_memory := 0 }

/-- A valid aggregate-state return type: non-nullable, agg-state family. -/
def dtAggOk : DataType :=
  { name := "AggState", family_name := "AggState", is_nullable := false,
    primitive_type := .TYPE_AGG_STATE, have_maximum_size_of_value := false,
    size_of_value_in_memory := 0, nested_function := "sum" }

/-- A nullable aggregate-state return type (invalid for state binding). -/
def dtAggNullable : DataType :=
  { dtAggOk with name := "NullableAggState", is_nullable := true }

/-- A registry with no native functions at all. -/
def registryNone : Registry := fun _ _ _ _ _ => none

/-- A configuration with the foreign runtime disabled. -/
def cfgJavaOff : Config := { enable_java_support := false }

/-- A configuration with the foreign runtime enabled. -/
def cfgJavaOn : Config := { enable_java_support := true }

/-- A pass-everything execution environment. -/
def envAll : ExecEnv :=
  { checkConstant := fun _ _ => true, checkTypeAndColumn := fun _ => true }

/-- A sample non-constant node with one child estimating four bytes per
row: the bound function and hooks are inert placeholders. -/
def estNode : VFnCall :=
  { data_type := dtInt, expr_name := "est",
    children := [{ exec := fun b => .ok (b, 0), estimate := fun r => r * 4 }],
    fnImpl := fun _ _ _ _ => .ok [],
    constCol := none,
    fastExec := fun _ => none }

/-- A sample constant-and-evaluated node caching the column `[7, 7]`. -/
def constNode : VFnCall :=
  { data_type := dtInt, expr_name := "constfn",
    children := [],
    fnImpl := fun _ _ _ _ => .ok [],
    constCol := some { data := [7, 7], type := dtInt },
    fastExec := fun _ => none }

/-- A sample child that appends the column `[1, 2, 3]` and reports its
index. -/
def addChild : ChildNode :=
  { exec := fun b =>
      Except.ok (b.insert { column := some [1, 2, 3], type := dtInt, name := "a" }, b.columns),
    estimate := fun _ => 0 }

/-- A sample node for the general execution path: one child appending
`[1, 2, 3]`, and a bound function computing `[11, 22, 33]`. -/
def addNode : VFnCall :=
  { data_type := dtInt, expr_name := "addcol",
    children := [addChild],
    fnImpl := fun _ _ _ _ => .ok [11, 22, 33],
    constCol := none,
    fastExec := fun _ => none }

/-- A concrete native addition descriptor. -/
def fnPlus : TFunction :=
  { function_name := "plus", signature := "plus(int,int)", binary_type := .BUILTIN }

/-- A descriptor sharing the name of `fnPlus` but declared remote. -/
def fnPlusRpc : TFunction :=
  { function_name := "plus", signature := "plus(int,int)", binary_type := .RPC }

/-! ## String containment lemmas -/

theorem charsLeading_append_self (p rest : List Char) :
    charsLeading p (p ++ rest) = true := by
  induction p with
  | nil => rfl
  | cons c ps ih => simp [charsLeading, ih]

theorem charsContain_of_leading : ∀ (hay pat : List Char),
    charsLeading pat hay = true → charsContain hay pat = true
  | [], _, h => h
  | _ :: _, _, h => by simp [charsContain, h]

theorem charsContain_append (a p b : List Char) :
    charsContain (a ++ (p ++ b)) p = true := by
  induction a with
  | nil => exact charsContain_of_leading (p ++ b) p (charsLeading_append_self p b)
  | cons x xs ih =>
    show (charsLeading p (x :: (xs ++ (p ++ b))) || charsContain (xs ++ (p ++ b)) p) = true
    rw [ih]
    exact Bool.or_true _

theorem string_data_append (a b : String) : (a ++ b).data = a.data ++ b.data := by
  cases a
  cases b
  rfl

theorem strContain_append (a p b : String) :
    strContain (a ++ (p ++ b)) p = true := by
  show charsContain (a ++ (p ++ b)).data p.data = true
  rw [string_data_append, string_data_append]
  exact charsContain_append a.data p.data b.data

/-! ## Binding theorems (`prepare`) -/

/-- Claim C3: for a state-merge (`AGG_STATE`) node, `prepare` fails
whenever the declared return type is nullable or not of the
aggregate-state family, regardless of the name, and it binds a
state-merge executable only when the return type is the non-nullable
aggregate-state type. -/
theorem prepare_agg_state_return_type (cfg : Config) (registry : Registry)
    (fn : TFunction) (dt : DataType) (children : List VExpr)
    (hb : fn.binary_type = .AGG_STATE) :
    ((dt.is_nullable = true ∨ dt.primitive_type ≠ .TYPE_AGG_STATE) →
      ∃ e : PrepError, prepare cfg registry fn dt children = .error e) ∧
    (∀ f : BoundFunction, prepare cfg registry fn dt children = .ok f →
      f = .aggState ((argTemplate children).map fun c => c.type) dt dt.nested_function ∧
        dt.is_nullable = false ∧ dt.primitive_type = .TYPE_AGG_STATE) := by
  unfold prepare
  simp only [hb]
  cases hs : match_suffix fn.function_name AGG_STATE_SUFFIX with
  | false =>
    constructor
    · intro _
      exact ⟨.stateNameNoSuffix fn.signature, by simp⟩
    · intro f hf
      simp at hf
  | true =>
    cases hn : dt.is_nullable with
    | true =>
      constructor
      · intro _
        exact ⟨.stateReturnNullable, by simp⟩
      · intro f hf
        simp at hf
    | false =>
      by_cases hp : dt.primitive_type = .TYPE_AGG_STATE
      · constructor
        · rintro (h | h)
          · simp at h
          · exact absurd hp h
        · intro f hf
          simp [hp] at hf
          exact ⟨hf.symm, rfl, hp⟩
      · constructor
        · intro _
          exact ⟨.stateReturnNotAggState dt.family_name, by simp [hp]⟩
        · intro f hf
          simp [hp] at hf

/-- Witness for claim C3 at a nullable agg-state return type. -/
theorem prepare_agg_state_return_type_witness :
    ∃ e : PrepError,
      prepare cfgJavaOn registryNone
        { function_name := "sum_state", signature := "sum_state(int)",
          binary_type := .AGG_STATE }
        dtAggNullable [] = .error e :=
  (prepare_agg_state_return_type cfgJavaOn registryNone _ dtAggNullable [] rfl).1
    (Or.inl rfl)

/-- Claim C4: for a state-merge (`AGG_STATE`) node whose function name
does not end with the reserved `_state` suffix, `prepare` fails with the
no-suffix binding error, whatever the return type is. -/
theorem prepare_agg_state_suffix_required (cfg : Config) (registry : Registry)
    (fn : TFunction) (dt : DataType) (children : List VExpr)
    (hb : fn.binary_type = .AGG_STATE)
    (hs : match_suffix fn.function_name AGG_STATE_SUFFIX = false) :
    prepare cfg registry fn dt children = .error (.stateNameNoSuffix fn.signature) := by
  unfold prepare
  simp [hb, hs]

/-- Witness for claim C4: the name `sum` lacks the suffix, and the
return type is the otherwise valid non-nullable agg-state type. -/
theorem prepare_agg_state_suffix_required_witness :
    match_suffix "sum" AGG_STATE_SUFFIX = false ∧
      dtAggOk.is_nullable = false ∧ dtAggOk.primitive_type = .TYPE_AGG_STATE ∧
      prepare cfgJavaOn registryNone
        { function_name := "sum", signature := "sum(int)", binary_type := .AGG_STATE }
        dtAggOk [] = .error (.stateNameNoSuffix "sum(int)") :=
  ⟨rfl, rfl, rfl,
    prepare_agg_state_suffix_required cfgJavaOn registryNone _ dtAggOk [] rfl rfl⟩

/-- Claim C5: for a `JAVA_UDF` node with the foreign runtime disabled,
`prepare` fails with the binding error whose message names the
`enable_java_support` configuration setting, and never binds an
executable. -/
theorem prepare_java_udf_disabled (cfg : Config) (registry : Registry)
    (fn : TFunction) (dt : DataType) (children : List VExpr)
    (hb : fn.binary_type = .JAVA_UDF)
    (hc : cfg.enable_java_support = false) :
    prepare cfg registry fn dt children = .error .javaUdfDisabled ∧
    strContain (PrepError.message .javaUdfDisabled) "enable_java_support" = true ∧
    ∀ f : BoundFunction, prepare cfg registry fn dt children ≠ .ok f := by
  refine ⟨?_, by decide, ?_⟩
  · unfold prepare
    simp [hb, hc]
  · intro f hf
    unfold prepare at hf
    simp [hb, hc] at hf

/-- Witness for claim C5 at a concrete disabled configuration. -/
theorem prepare_java_udf_disabled_witness :
    prepare cfgJavaOff registryNone
      { function_name := "my_udf", signature := "my_udf()", binary_type := .JAVA_UDF }
      dtInt [] = .error .javaUdfDisabled :=
  (prepare_java_udf_disabled cfgJavaOff registryNone _ dtInt [] rfl rfl).1

/-- Claim C6: for a native node (`BUILTIN`), a registry miss makes
`prepare` fail with the not-found binding error, whose message names the
function, its arguments and its return type. -/
theorem prepare_native_lookup_miss (cfg : Config) (registry : Registry)
    (fn : TFunction) (dt : DataType) (children : List VExpr)
    (hb : fn.binary_type = .BUILTIN)
    (hm : registry fn.function_name (argTemplate children) dt
            cfg.enable_decimal256 cfg.be_exec_version = none) :
    prepare cfg registry fn dt children =
      .error (.functionNotFound fn.function_name (get_child_names children) dt.name) ∧
    strContain
      (PrepError.message
        (.functionNotFound fn.function_name (get_child_names children) dt.name))
      fn.function_name = true ∧
    strContain
      (PrepError.message
        (.functionNotFound fn.function_name (get_child_names children) dt.name))
      (get_child_names children) = true ∧
    strContain
      (PrepError.message
        (.functionNotFound fn.function_name (get_child_names children) dt.name))
      dt.name = true := by
  refine ⟨?_, ?_, ?_, ?_⟩
  · unfold prepare
    simp [hb, hm]
  · exact strContain_append "Could not find function " fn.function_name
      (", arg " ++ (get_child_names children ++ (" return " ++ (dt.name ++ " "))))
  · show strContain
      ("Could not find function " ++ (fn.function_name ++ (", arg " ++
        (get_child_names children ++ (" return " ++ (dt.name ++ " "))))))
      (get_child_names children) = true
    have hre : "Could not find function " ++ (fn.function_name ++ (", arg " ++
        (get_child_names children ++ (" return " ++ (dt.name ++ " "))))) =
        ("Could not find function " ++ fn.function_name ++ ", arg ") ++
          (get_child_names children ++ (" return " ++ (dt.name ++ " "))) := by
      simp [String.append_assoc]
    rw [hre]
    exact strContain_append _ _ _
  · show strContain
      ("Could not find function " ++ (fn.function_name ++ (", arg " ++
        (get_child_names children ++ (" return " ++ (dt.name ++ " "))))))
      dt.name = true
    have hre : "Could not find function " ++ (fn.function_name ++ (", arg " ++
        (get_child_names children ++ (" return " ++ (dt.name ++ " "))))) =
        ("Could not find function " ++ fn.function_name ++ ", arg " ++
          get_child_names children ++ " return ") ++ (dt.name ++ " ") := by
      simp [String.append_assoc]
    rw [hre]
    exact strContain_append _ _ _

/-- Witness for claim C6 at an empty registry. -/
theorem prepare_native_lookup_miss_witness :
    prepare cfgJavaOn registryNone
      { function_name := "my_fn", signature := "my_fn(int)", binary_type := .BUILTIN }
      dtInt [VExpr.literal dtInt "lit5" 5] =
      .error (.functionNotFound "my_fn" "lit5" "Int32") :=
  (prepare_native_lookup_miss cfgJavaOn registryNone _ dtInt
      [VExpr.literal dtInt "lit5" 5] rfl rfl).1

/-- Claim C10: for a `JAVA_UDF` node with the runtime enabled and a
UDTF placeholder function, `prepare` succeeds and binds the fake
executable built against the fixed `UInt8` type, so the bound return
type can differ from the declared one. -/
theorem prepare_udtf_fake_return_type (cfg : Config) (registry : Registry)
    (fn : TFunction) (dt : DataType) (children : List VExpr)
    (hb : fn.binary_type = .JAVA_UDF)
    (hc : cfg.enable_java_support = true)
    (hu : fn.is_udtf_function = true) :
    prepare cfg registry fn dt children =
      .ok (.fakeUdtf (argTemplate children) dataTypeUInt8) ∧
    (BoundFunction.fakeUdtf (argTemplate children) dataTypeUInt8).return_type =
      dataTypeUInt8 ∧
    (dt ≠ dataTypeUInt8 →
      (BoundFunction.fakeUdtf (argTemplate children) dataTypeUInt8).return_type ≠ dt) := by
  refine ⟨?_, rfl, ?_⟩
  · unfold prepare
    simp [hb, hc, hu]
  · intro hne
    show dataTypeUInt8 ≠ dt
    exact fun h => hne h.symm

/-- Witness for claim C10: the declared return type `Int32` differs
from the bound `UInt8` return type. -/
theorem prepare_udtf_fake_return_type_witness :
    prepare cfgJavaOn registryNone
      { function_name := "explode", signature := "explode(int)",
        binary_type := .JAVA_UDF, is_udtf_function := true }
      dtInt [] = .ok (.fakeUdtf [] dataTypeUInt8) ∧
    (BoundFunction.fakeUdtf ([] : List ColumnWithTypeAndName) dataTypeUInt8).return_type ≠ dtInt := by
  have h := prepare_udtf_fake_return_type cfgJavaOn registryNone
    { function_name := "explode", signature := "explode(int)",
      binary_type := .JAVA_UDF, is_udtf_function := true }
    dtInt [] rfl rfl rfl
  exact ⟨h.1, h.2.2 (by decide)⟩

/-! ## Memory estimation theorems -/

/-- Claim C7: `estimate_memory` is zero on a constant-and-evaluated
node; otherwise it is the child sum plus `rows` times the bounded value
size (or the 512-byte fallback); it is zero at zero rows for a
non-constant node whose children estimate zero there; and it is
monotone in the row count when every child estimate is. -/
theorem estimate_memory_spec (e : VFnCall) :
    (e.constCol.isSome = true → ∀ r, estimate_memory e r = 0) ∧
    (e.constCol = none → ∀ r, estimate_memory e r =
      ((e.children.map fun c => c.estimate r).sum) +
        (if e.data_type.have_maximum_size_of_value then
          r * e.data_type.size_of_value_in_memory
        else
          r * 512)) ∧
    (e.constCol = none → (∀ c ∈ e.children, c.estimate 0 = 0) →
      estimate_memory e 0 = 0) ∧
    ((∀ c ∈ e.children, ∀ r1 r2, r1 ≤ r2 → c.estimate r1 ≤ c.estimate r2) →
      ∀ r1 r2, r1 ≤ r2 → estimate_memory e r1 ≤ estimate_memory e r2) := by
  refine ⟨?_, ?_, ?_, ?_⟩
  · intro hc r
    unfold estimate_memory
    simp [hc]
  · intro hc r
    unfold estimate_memory
    simp [hc]
  · intro hc hz
    unfold estimate_memory
    simp only [hc, Option.isSome_none, Bool.false_eq_true, if_false]
    rw [List.sum_eq_zero]
    · simp
    · intro x hx
      rcases List.mem_map.mp hx with ⟨c, hcm, hce⟩
      rw [← hce]
      exact hz c hcm
  · intro hmono r1 r2 hr
    unfold estimate_memory
    cases hc : e.constCol with
    | some c => simp
    | none =>
      simp only [hc, Option.isSome_none, Bool.false_eq_true, if_false]
      refine Nat.add_le_add ?_ ?_
      · refine List.sum_le_sum ?_
        intro c hcm
        exact hmono c hcm r1 r2 hr
      · split_ifs <;> exact Nat.mul_le_mul_right _ hr

/-- Witness for claim C7: the sample node estimates zero at zero rows
and is monotone between two concrete row counts. -/
theorem estimate_memory_spec_witness :
    estimate_memory estNode 0 = 0 ∧
      estimate_memory estNode 2 ≤ estimate_memory estNode 5 := by
  constructor
  · refine (estimate_memory_spec estNode).2.2.1 rfl ?_
    intro c hcm
    simp [estNode] at hcm
    rw [hcm]
  · refine (estimate_memory_spec estNode).2.2.2 ?_ 2 5 (by decide)
    intro c hcm r1 r2 hr
    simp [estNode] at hcm
    rw [hcm]
    exact Nat.mul_le_mul_right _ hr

/-! ## Execution theorems -/

/-- Claim C2: on a node proven constant and evaluated during `open`,
`_do_execute` returns the cached constant column appended to the block
(and its index), for every block; the result does not depend on the
children, the bound function, the fast-execute hook or the external
checks; and the only column gained is the cached one. -/
theorem execute_const_shortcircuit (env env2 : ExecEnv) (e : VFnCall)
    (c : ConstColumn) (cs : List ChildNode)
    (f : Block → List Nat → Nat → Nat → Except String (List Int))
    (g : Block → Option (Block × Nat))
    (h : e.constCol = some c) :
    (∀ block : Block, doExecute env e block =
      .ok (block.insert { column := some c.data, type := c.type, name := e.expr_name },
           block.columns)) ∧
    (∀ block : Block,
      doExecute env2 { e with children := cs, fnImpl := f, fastExec := g } block =
        doExecute env e block) ∧
    (∀ block : Block,
      (block.insert { column := some c.data, type := c.type, name := e.expr_name }).entries =
        block.entries ++
          [{ column := some c.data, type := c.type, name := e.expr_name }]) := by
  have key : ∀ (env3 : ExecEnv) (e3 : VFnCall), e3.constCol = some c →
      e3.expr_name = e.expr_name →
      ∀ block : Block, doExecute env3 e3 block =
        .ok (block.insert { column := some c.data, type := c.type, name := e.expr_name },
             block.columns) := by
    intro env3 e3 h3 hn block
    unfold doExecute
    rw [h3]
    unfold get_result_from_const
    rw [hn]
  refine ⟨key env e h rfl, ?_, fun block => rfl⟩
  intro block
  rw [key env2 { e with children := cs, fnImpl := f, fastExec := g } h rfl block,
    key env e h rfl block]

/-- Witness for claim C2: two consecutive calls on the growing block
each return the same cached column. -/
theorem execute_const_shortcircuit_witness :
    doExecute envAll constNode { entries := [], rows := 2 } =
      .ok ({ entries := [{ column := some [7, 7], type := dtInt, name := "constfn" }],
             rows := 2 }, 0) ∧
    doExecute envAll constNode
        { entries := [{ column := some [7, 7], type := dtInt, name := "constfn" }],
          rows := 2 } =
      .ok ({ entries := [{ column := some [7, 7], type := dtInt, name := "constfn" },
                         { column := some [7, 7], type := dtInt, name := "constfn" }],
             rows := 2 }, 1) := by
  have h := execute_const_shortcircuit envAll envAll constNode
    { data := [7, 7], type := dtInt } [] (fun _ _ _ _ => .ok []) (fun _ => none) rfl
  exact ⟨h.1 _, h.1 _⟩

theorem setPayload_concat (l : List ColumnEntry) (en : ColumnEntry) (d : List Int) :
    setPayload (l ++ [en]) l.length d = l ++ [{ en with column := some d }] := by
  induction l with
  | nil => rfl
  | cons x xs ih =>
    show x :: setPayload (xs ++ [en]) xs.length d = x :: (xs ++ [{ en with column := some d }])
    rw [ih]

/-- Claim C1: a successful general-path `_do_execute` appends, after the
argument columns of the children, one fresh column carrying the declared
return type and display name (inserted empty, then populated in place),
and returns exactly the column count the block had at the moment of the
insertion. -/
theorem execute_general_appends_result (env : ExecEnv) (e : VFnCall)
    (block bres : Block) (id : Nat)
    (hconst : e.constCol = none)
    (hfast : e.fastExec block = none)
    (h : doExecute env e block = .ok (bres, id)) :
    ∃ (b1 : Block) (args : List Nat) (data : List Int),
      execChildren e.children block = .ok (b1, args) ∧
      id = b1.columns ∧
      bres = (b1.insert { column := none, type := e.data_type, name := e.expr_name }).setData
        id data ∧
      bres.entries = b1.entries ++
        [{ column := some data, type := e.data_type, name := e.expr_name }] ∧
      bres.columns = b1.columns + 1 := by
  unfold doExecute at h
  cases hec : execChildren e.children block with
  | error m =>
    simp [hconst, hfast, hec] at h
  | ok res =>
    obtain ⟨b1, args⟩ := res
    by_cases hcc : env.checkConstant b1 args = true
    · cases hfn : e.fnImpl
          (b1.insert { column := none, type := e.data_type, name := e.expr_name }) args
          b1.columns
          (b1.insert { column := none, type := e.data_type, name := e.expr_name }).rows with
      | error m =>
        simp [hconst, hfast, hec, hcc, hfn] at h
      | ok data =>
        by_cases htc : env.checkTypeAndColumn
            ((b1.insert { column := none, type := e.data_type, name := e.expr_name }).setData
              b1.columns data) = true
        · simp only [hconst, hfast, hec, hcc, hfn, htc, if_true,
            Except.ok.injEq, Prod.mk.injEq] at h
          obtain ⟨hb, hid⟩ := h
          refine ⟨b1, args, data, rfl, hid.symm, ?_, ?_, ?_⟩
          · rw [← hb, hid]
          · rw [← hb]
            show setPayload (b1.entries ++ [_]) b1.entries.length data = _
            rw [setPayload_concat]
          · rw [← hb]
            show (setPayload (b1.entries ++ [_]) b1.entries.length data).length =
              b1.entries.length + 1
            rw [setPayload_concat]
            simp
        · simp [hconst, hfast, hec, hcc, hfn, htc] at h
    · simp [hconst, hfast, hec, hcc] at h

/-- Witness for claim C1 on the sample node over an empty block. -/
theorem execute_general_appends_result_witness :
    ∃ (b1 : Block) (args : List Nat) (data : List Int),
      execChildren addNode.children { entries := [], rows := 3 } = .ok (b1, args) ∧
      1 = b1.columns ∧
      ({ entries := [{ column := some [1, 2, 3], type := dtInt, name := "a" },
                     { column := some [11, 22, 33], type := dtInt, name := "addcol" }],
         rows := 3 } : Block) =
        (b1.insert
          { column := none, type := addNode.data_type, name := addNode.expr_name }).setData
            1 data ∧
      ({ entries := [{ column := some [1, 2, 3], type := dtInt, name := "a" },
                     { column := some [11, 22, 33], type := dtInt, name := "addcol" }],
         rows := 3 } : Block).entries = b1.entries ++
        [{ column := some data, type := addNode.data_type, name := addNode.expr_name }] ∧
      ({ entries := [{ column := some [1, 2, 3], type := dtInt, name := "a" },
                     { column := some [11, 22, 33], type := dtInt, name := "addcol" }],
         rows := 3 } : Block).columns = b1.columns + 1 :=
  execute_general_appends_result envAll addNode { entries := [], rows := 3 }
    { entries := [{ column := some [1, 2, 3], type := dtInt, name := "a" },
                  { column := some [11, 22, 33], type := dtInt, name := "addcol" }],
      rows := 3 } 1 rfl rfl rfl

/-! ## Structural equality theorems -/

mutual

theorem equals_refl : ∀ e : VExpr, e.equals e = true
  | .literal t n v => by simp [VExpr.equals]
  | .fnCall f dt cs => by
    simp [VExpr.equals]
    exact equalsChildren_refl cs

theorem equalsChildren_refl : ∀ cs : List VExpr, VExpr.equalsChildren cs cs = true
  | [] => rfl
  | c :: cs => by
    simp [VExpr.equalsChildren]
    exact ⟨equals_refl c, equalsChildren_refl cs⟩

end

theorem equalsChildren_iff : ∀ cs ds : List VExpr,
    VExpr.equalsChildren cs ds = true ↔
      (cs.length = ds.length ∧
        ∀ (i : Nat) (h : i < cs.length) (h2 : i < ds.length),
          (cs.get ⟨i, h⟩).equals (ds.get ⟨i, h2⟩) = true)
  | [], [] => by simp [VExpr.equalsChildren]
  | [], d :: ds => by simp [VExpr.equalsChildren]
  | c :: cs, [] => by simp [VExpr.equalsChildren]
  | c :: cs, d :: ds => by
    simp only [VExpr.equalsChildren, Bool.and_eq_true, equalsChildren_iff cs ds,
      List.length_cons]
    constructor
    · rintro ⟨hcd, hlen, hall⟩
      refine ⟨by omega, ?_⟩
      intro i h h2
      cases i with
      | zero => exact hcd
      | succ j => exact hall j (by omega) (by omega)
    · rintro ⟨hlen, hall⟩
      refine ⟨hall 0 (by omega) (by omega), by omega, ?_⟩
      intro i h h2
      exact hall (i + 1) (by omega) (by omega)

/-- Claim C8: `equals` is reflexive; on two call nodes it is true
exactly when the function names agree, the child counts agree, and the
children are pairwise recursively equal in order; and a non-call
argument always compares false. -/
theorem equals_structural :
    (∀ e : VExpr, e.equals e = true) ∧
    (∀ (f g : TFunction) (dt dt2 : DataType) (cs ds : List VExpr),
      (VExpr.fnCall f dt cs).equals (VExpr.fnCall g dt2 ds) = true ↔
        (f.function_name = g.function_name ∧ cs.length = ds.length ∧
          ∀ (i : Nat) (h : i < cs.length) (h2 : i < ds.length),
            (cs.get ⟨i, h⟩).equals (ds.get ⟨i, h2⟩) = true)) ∧
    (∀ (f : TFunction) (dt : DataType) (cs : List VExpr) (t : DataType) (n : String)
        (v : Int),
      (VExpr.fnCall f dt cs).equals (VExpr.literal t n v) = false) := by
  refine ⟨equals_refl, ?_, ?_⟩
  · intro f g dt dt2 cs ds
    simp only [VExpr.equals, Bool.and_eq_true, decide_eq_true_eq,
      equalsChildren_iff cs ds]
    constructor
    · rintro ⟨⟨hname, hlen⟩, _, hall⟩
      exact ⟨hname, hlen, hall⟩
    · rintro ⟨hname, hlen, hall⟩
      exact ⟨⟨hname, hlen⟩, hlen, hall⟩
  · intro f dt cs t n v
    rfl

/-- Witness for claim C8: a concrete call node equals itself and does
not equal a literal. -/
theorem equals_structural_witness :
    (VExpr.fnCall fnPlus dtInt [VExpr.literal dtInt "one" 1]).equals
      (VExpr.fnCall fnPlus dtInt [VExpr.literal dtInt "one" 1]) = true ∧
    (VExpr.fnCall fnPlus dtInt [VExpr.literal dtInt "one" 1]).equals
      (VExpr.literal dtInt "one" 1) = false :=
  ⟨equals_structural.1 _, equals_structural.2.2 _ _ _ _ _ _⟩

/-- Claim C9: `equals` never inspects the declared return type or the
rest of the function descriptor: same function name, same child count
and pairwise-equal children already force a true comparison, whatever
the two return types are. -/
theorem equals_ignores_return_type (f g : TFunction) (dt dt2 : DataType)
    (cs ds : List VExpr)
    (hname : f.function_name = g.function_name)
    (hlen : cs.length = ds.length)
    (hch : VExpr.equalsChildren cs ds = true) :
    (VExpr.fnCall f dt cs).equals (VExpr.fnCall g dt2 ds) = true := by
  simp only [VExpr.equals, Bool.and_eq_true, decide_eq_true_eq]
  exact ⟨⟨hname, hlen⟩, hch⟩

/-- Witness for claim C9: two call nodes whose declared return types
(and backend kinds) differ still compare equal. -/
theorem equals_ignores_return_type_witness :
    dtInt ≠ dtStr ∧
    (VExpr.fnCall fnPlus dtInt []).equals (VExpr.fnCall fnPlusRpc dtStr []) = true :=
  ⟨by decide, equals_ignores_return_type fnPlus fnPlusRpc dtInt dtStr [] [] rfl rfl rfl⟩

end DorisVec
